import Mathlib

/-!
Shallow embedding of the Port Event & State Controller
(`src/cpp/interrupts/sonic_interrupt_controller.{h,cpp}`,
class `sonic::interrupts::SONiCInterruptController`) together with proofs
about it.

Modelling conventions:
* `std::map` members become association lists (`List (κ × β)`) with
  `mapFind` / `mapSet` mirroring `find` / `operator[]=`.
* Timestamps (`std::chrono::system_clock::time_point`) become a `Nat` tick
  passed explicitly as `now`; every call the C++ makes to
  `system_clock::now()` during one operation is modelled as that tick.
* The external system of record (Redis inside the SONiC container, reached
  through `docker exec` + `redis-cli`) is a store from `(db, key, field)`
  to string values.  Write commands (`HSET`) can fail (non-zero exit code
  of the piped command); the failure schedule is a function from the index
  of the write call to `Bool`.  Read commands (`HGET`) are modelled as
  infallible lookups returning `""` when absent, matching the empty output
  `getRedisHashField` returns in that case.
* Subscriber callbacks (`std::function<void(const PortEvent&)>`) are opaque
  side-effecting values; a handler is modelled by an identifier plus a flag
  saying whether invoking it throws.  Dispatch is modelled by returning the
  ordered list of invocations (`HandlerCall`) an operation performs.
-/

namespace SonicInterrupts

/-- `enum class LinkStatus` from `sonic_interrupt_controller.h`. -/
inductive LinkStatus where
  | UP
  | DOWN
  | UNKNOWN
deriving DecidableEq, Repr

/-- `enum class CableEvent` from `sonic_interrupt_controller.h`. -/
inductive CableEvent where
  | CABLE_INSERTED
  | CABLE_REMOVED
  | LINK_UP
  | LINK_DOWN
  | SFP_INSERTED
  | SFP_REMOVED
  | SPEED_CHANGE
  | DUPLEX_CHANGE
deriving DecidableEq, Repr

/-- `struct LinkState` from `sonic_interrupt_controller.h`. -/
structure LinkState where
  port_name : String
  admin_status : LinkStatus
  oper_status : LinkStatus
  speed_mbps : Nat
  duplex : String
  auto_neg : Bool
  mtu : Nat
  mac_address : String
  last_change : Nat
  link_up_count : Nat
  link_down_count : Nat
deriving DecidableEq, Repr

/-- `struct SFPInfo` from `sonic_interrupt_controller.h`. -/
structure SFPInfo where
  port_name : String
  is_present : Bool
  vendor_name : String
  part_number : String
  serial_number : String
  connector_type : String
  cable_length : String
  supported_speeds : List Nat
  status : String
deriving DecidableEq, Repr

/-- `struct PortEvent` from `sonic_interrupt_controller.h`. -/
structure PortEvent where
  port_name : String
  event_type : CableEvent
  old_status : LinkStatus
  new_status : LinkStatus
  speed_mbps : Nat
  duplex : String
  timestamp : Nat
  additional_info : String
deriving DecidableEq, Repr

/-- A subscriber callback (`InterruptHandler`).  `hid` identifies the
callback; `throws` says whether invoking it raises an exception. -/
structure Handler where
  hid : Nat
  throws : Bool
deriving DecidableEq, Repr

/-- One handler invocation performed during dispatch: which handler ran and
whether it raised (and was caught by the `try`/`catch` in
`triggerEvent`). -/
structure HandlerCall where
  hid : Nat
  raised : Bool
deriving DecidableEq, Repr

/-- Record of an invocation of handler `h`. -/
def Handler.call (h : Handler) : HandlerCall :=
  { hid := h.hid, raised := h.throws }

/-- Association-list analogue of `std::map::find`. -/
def mapFind {κ β : Type} [DecidableEq κ] : List (κ × β) → κ → Option β
  | [], _ => none
  | (k', v) :: rest, k => if k' = k then some v else mapFind rest k

/-- Association-list analogue of `std::map::operator[] = v`. -/
def mapSet {κ β : Type} [DecidableEq κ] : List (κ × β) → κ → β → List (κ × β)
  | [], k, v => [(k, v)]
  | (k', v') :: rest, k, v =>
      if k' = k then (k, v) :: rest else (k', v') :: mapSet rest k v

/-- The controller's mutable members (`SONiCInterruptController`):
handler registries, port/SFP state maps, event history, statistics. -/
structure Controller where
  event_handlers : List (CableEvent × List Handler)
  global_handlers : List Handler
  port_states : List (String × LinkState)
  sfp_info : List (String × SFPInfo)
  event_history : List PortEvent
  event_statistics : List (String × Nat)
deriving Repr

/-- A freshly constructed controller: all maps and lists empty. -/
def initController : Controller :=
  { event_handlers := [], global_handlers := [], port_states := [],
    sfp_info := [], event_history := [], event_statistics := [] }

/-- The external system of record (the Redis databases of the SONiC
container).  `store` maps `(db, key, field)` to the stored string;
`failAt n` says whether the `n`-th external write command fails;
`calls` counts the write commands issued so far. -/
structure Ext where
  store : List ((Nat × String × String) × String)
  failAt : Nat → Bool
  calls : Nat

/-- `setRedisHashField(key, field, value, db_id)`: issues
`HSET key field value` against database `db`.  On success the store is
updated; either way the call counter advances. -/
def setRedisHashField (ext : Ext) (key field value : String) (db : Nat) :
    Bool × Ext :=
  if ext.failAt ext.calls then
    (false, { store := ext.store, failAt := ext.failAt, calls := ext.calls + 1 })
  else
    (true, { store := mapSet ext.store (db, key, field) value,
             failAt := ext.failAt, calls := ext.calls + 1 })

/-- `getRedisHashField(key, field, db_id)`: `HGET` returning the stored
value, or `""` when the field is absent (the empty command output). -/
def getRedisHashField (ext : Ext) (key field : String) (db : Nat) : String :=
  (mapFind ext.store (db, key, field)).getD ""

/-- Character-level `startsWith` (kernel-computable). -/
def strStarts (s pat : String) : Bool :=
  decide (s.data.take pat.data.length = pat.data)

/-- Character-level `drop` (kernel-computable). -/
def strDrop (s : String) (n : Nat) : String :=
  String.mk (s.data.drop n)

/-- Digits-to-number accumulator for `strToNat`. -/
def strToNatAux : List Char → Nat → Nat
  | [], acc => acc
  | ch :: rest, acc => strToNatAux rest (acc * 10 + (ch.toNat - 48))

/-- `std::stoul` on the digit strings read back from Redis. -/
def strToNat (s : String) : Nat :=
  strToNatAux s.data 0

/-- `validatePortName`: the regex `^Ethernet[0-9]+$`. -/
def validatePortName (port_name : String) : Bool :=
  strStarts port_name "Ethernet" &&
    (let rest := port_name.data.drop 8
     decide (0 < rest.length) && rest.all Char.isDigit)

/-- `parseSONiCLinkStatus`. -/
def parseSONiCLinkStatus (status_str : String) : LinkStatus :=
  if status_str = "up" then LinkStatus.UP
  else if status_str = "down" then LinkStatus.DOWN
  else LinkStatus.UNKNOWN

/-- `linkStatusToString`. -/
def linkStatusToString (status : LinkStatus) : String :=
  match status with
  | LinkStatus.UP => "UP"
  | LinkStatus.DOWN => "DOWN"
  | LinkStatus.UNKNOWN => "UNKNOWN"

/-- `cableEventToString`. -/
def cableEventToString (event : CableEvent) : String :=
  match event with
  | CableEvent.CABLE_INSERTED => "CABLE_INSERTED"
  | CableEvent.CABLE_REMOVED => "CABLE_REMOVED"
  | CableEvent.LINK_UP => "LINK_UP"
  | CableEvent.LINK_DOWN => "LINK_DOWN"
  | CableEvent.SFP_INSERTED => "SFP_INSERTED"
  | CableEvent.SFP_REMOVED => "SFP_REMOVED"
  | CableEvent.SPEED_CHANGE => "SPEED_CHANGE"
  | CableEvent.DUPLEX_CHANGE => "DUPLEX_CHANGE"

/-- `updateEventStatistics`: `m_event_statistics[cableEventToString(e)]++`
(`operator[]` default-constructs `0` for a missing key). -/
def updateEventStatistics (stats : List (String × Nat)) (event : CableEvent) :
    List (String × Nat) :=
  let event_name := cableEventToString event
  mapSet stats event_name ((mapFind stats event_name).getD 0 + 1)

/-- `getPortLinkStateUnsafe(port_name)`: the stored state, or the default
state (all-UNKNOWN, zero counters, `last_change` stamped with the current
time) when the port has no entry. -/
def getPortLinkStateUnsafe (c : Controller) (port_name : String) (now : Nat) :
    LinkState :=
  match mapFind c.port_states port_name with
  | some st => st
  | none =>
      { port_name := port_name, admin_status := LinkStatus.UNKNOWN,
        oper_status := LinkStatus.UNKNOWN, speed_mbps := 0,
        duplex := "unknown", auto_neg := false, mtu := 1500,
        mac_address := "00:00:00:00:00:00", last_change := now,
        link_up_count := 0, link_down_count := 0 }

/-- `getPortLinkState(port_name)`: takes the state lock and delegates to
`getPortLinkStateUnsafe`. -/
def getPortLinkState (c : Controller) (port_name : String) (now : Nat) :
    LinkState :=
  getPortLinkStateUnsafe c port_name now

/-- `getSFPInfo(port_name)`: the stored descriptor, or the not-present
default when the port has no entry. -/
def getSFPInfo (c : Controller) (port_name : String) : SFPInfo :=
  match mapFind c.sfp_info port_name with
  | some info => info
  | none =>
      { port_name := port_name, is_present := false, vendor_name := "",
        part_number := "", serial_number := "", connector_type := "",
        cable_length := "", supported_speeds := [], status := "not_present" }

/-- `triggerEvent(event)`: append to `m_event_history`, update statistics,
then invoke all kind-specific handlers for `event.event_type` in
registration order followed by all global handlers in registration order.
A handler that throws is caught (`try`/`catch` around each call) and the
loop continues.  Returns the updated controller and the ordered invocation
list. -/
def triggerEvent (c : Controller) (event : PortEvent) :
    Controller × List HandlerCall :=
  let specific := (mapFind c.event_handlers event.event_type).getD []
  ({ c with
      event_history := c.event_history ++ [event],
      event_statistics := updateEventStatistics c.event_statistics event.event_type },
   specific.map Handler.call ++ c.global_handlers.map Handler.call)

/-- `registerEventHandler(event_type, handler)`: append to the
kind-specific vector (`operator[]` creates an empty vector if absent). -/
def registerEventHandler (c : Controller) (event_type : CableEvent)
    (handler : Handler) : Controller :=
  { c with
      event_handlers :=
        mapSet c.event_handlers event_type
          ((mapFind c.event_handlers event_type).getD [] ++ [handler]) }

/-- `registerGlobalEventHandler(handler)`. -/
def registerGlobalEventHandler (c : Controller) (handler : Handler) :
    Controller :=
  { c with global_handlers := c.global_handlers ++ [handler] }

/-- Result of one simulate operation: return value, controller state,
external state, and the ordered handler invocations the operation made. -/
structure SimResult where
  ok : Bool
  ctrl : Controller
  ext : Ext
  calls : List HandlerCall

/-- `simulateCableInsertion(port_name)`: validate the name, read the
current state (capturing `old_status`), write `oper_status = "up"` to
APPL_DB (db 0) and `present = "true"` to STATE_DB (db 6), and only if both
writes succeed update the local state (`oper_status := UP`,
`link_up_count++`, `last_change := now`) and trigger a `CABLE_INSERTED`
event. -/
def simulateCableInsertion (c : Controller) (ext : Ext) (now : Nat)
    (port_name : String) : SimResult :=
  if validatePortName port_name = false then
    { ok := false, ctrl := c, ext := ext, calls := [] }
  else
    let current_state := getPortLinkStateUnsafe c port_name now
    let old_status := current_state.oper_status
    let w1 := setRedisHashField ext ("PORT_TABLE:" ++ port_name) "oper_status" "up" 0
    if w1.1 = false then
      { ok := false, ctrl := c, ext := w1.2, calls := [] }
    else
      let w2 := setRedisHashField w1.2 ("TRANSCEIVER_INFO|" ++ port_name) "present" "true" 6
      if w2.1 = false then
        { ok := false, ctrl := c, ext := w2.2, calls := [] }
      else
        let new_state : LinkState :=
          { current_state with
              oper_status := LinkStatus.UP, last_change := now,
              link_up_count := current_state.link_up_count + 1 }
        let c1 := { c with port_states := mapSet c.port_states port_name new_state }
        let event : PortEvent :=
          { port_name := port_name, event_type := CableEvent.CABLE_INSERTED,
            old_status := old_status, new_status := LinkStatus.UP,
            speed_mbps := new_state.speed_mbps, duplex := new_state.duplex,
            timestamp := now, additional_info := "Cable insertion simulated" }
        let t := triggerEvent c1 event
        { ok := true, ctrl := t.1, ext := w2.2, calls := t.2 }

/-- `simulateCableRemoval(port_name)`: symmetric to insertion —
`oper_status = "down"` in APPL_DB, `present = "false"` in STATE_DB, local
`oper_status := DOWN`, `link_down_count++`, event kind `CABLE_REMOVED`. -/
def simulateCableRemoval (c : Controller) (ext : Ext) (now : Nat)
    (port_name : String) : SimResult :=
  if validatePortName port_name = false then
    { ok := false, ctrl := c, ext := ext, calls := [] }
  else
    let current_state := getPortLinkStateUnsafe c port_name now
    let old_status := current_state.oper_status
    let w1 := setRedisHashField ext ("PORT_TABLE:" ++ port_name) "oper_status" "down" 0
    if w1.1 = false then
      { ok := false, ctrl := c, ext := w1.2, calls := [] }
    else
      let w2 := setRedisHashField w1.2 ("TRANSCEIVER_INFO|" ++ port_name) "present" "false" 6
      if w2.1 = false then
        { ok := false, ctrl := c, ext := w2.2, calls := [] }
      else
        let new_state : LinkState :=
          { current_state with
              oper_status := LinkStatus.DOWN, last_change := now,
              link_down_count := current_state.link_down_count + 1 }
        let c1 := { c with port_states := mapSet c.port_states port_name new_state }
        let event : PortEvent :=
          { port_name := port_name, event_type := CableEvent.CABLE_REMOVED,
            old_status := old_status, new_status := LinkStatus.DOWN,
            speed_mbps := new_state.speed_mbps, duplex := new_state.duplex,
            timestamp := now, additional_info := "Cable removal simulated" }
        let t := triggerEvent c1 event
        { ok := true, ctrl := t.1, ext := w2.2, calls := t.2 }

/-- `simulateLinkFlap(port_name, flap_count)`: `flap_count` iterations of
removal followed by insertion; the first failing sub-step aborts the whole
operation with a failure result (already dispatched invocations are kept,
matching the already-published events of earlier sub-steps). -/
def simulateLinkFlap (c : Controller) (ext : Ext) (now : Nat)
    (port_name : String) : Nat → SimResult
  | 0 => { ok := true, ctrl := c, ext := ext, calls := [] }
  | Nat.succ m =>
      let rDown := simulateCableRemoval c ext now port_name
      if rDown.ok = false then
        { ok := false, ctrl := rDown.ctrl, ext := rDown.ext, calls := rDown.calls }
      else
        let rUp := simulateCableInsertion rDown.ctrl rDown.ext now port_name
        if rUp.ok = false then
          { ok := false, ctrl := rUp.ctrl, ext := rUp.ext,
            calls := rDown.calls ++ rUp.calls }
        else
          let rest := simulateLinkFlap rUp.ctrl rUp.ext now port_name m
          { ok := rest.ok, ctrl := rest.ctrl, ext := rest.ext,
            calls := rDown.calls ++ rUp.calls ++ rest.calls }

/-- `simulateSFPInsertion(port_name, sfp_info)`: validate, issue the four
STATE_DB writes (all four are executed — `result &= ...` does not
short-circuit), and only if all succeeded store the descriptor in
`m_sfp_info` and trigger an `SFP_INSERTED` event.  The event's
`old_status`/`new_status` are the hardcoded `DOWN`/`UP` of the source;
`speed_mbps` is left default-initialised there, modelled as `0`. -/
def simulateSFPInsertion (c : Controller) (ext : Ext) (now : Nat)
    (port_name : String) (sfp_info : SFPInfo) : SimResult :=
  if validatePortName port_name = false then
    { ok := false, ctrl := c, ext := ext, calls := [] }
  else
    let sfp_key := "TRANSCEIVER_INFO|" ++ port_name
    let w1 := setRedisHashField ext sfp_key "present" "true" 6
    let w2 := setRedisHashField w1.2 sfp_key "vendor_name" sfp_info.vendor_name 6
    let w3 := setRedisHashField w2.2 sfp_key "part_number" sfp_info.part_number 6
    let w4 := setRedisHashField w3.2 sfp_key "serial_number" sfp_info.serial_number 6
    if (w1.1 && w2.1 && w3.1 && w4.1) = false then
      { ok := false, ctrl := c, ext := w4.2, calls := [] }
    else
      let c1 := { c with sfp_info := mapSet c.sfp_info port_name sfp_info }
      let event : PortEvent :=
        { port_name := port_name, event_type := CableEvent.SFP_INSERTED,
          old_status := LinkStatus.DOWN, new_status := LinkStatus.UP,
          speed_mbps := 0, duplex := "", timestamp := now,
          additional_info := "SFP insertion simulated" }
      let t := triggerEvent c1 event
      { ok := true, ctrl := t.1, ext := w4.2, calls := t.2 }

/-- `simulateSFPRemoval(port_name)`: validate, write `present = "false"` to
STATE_DB, and on success flip `is_present` of an existing descriptor (a
missing descriptor is left missing) and trigger an `SFP_REMOVED` event with
the hardcoded `UP`/`DOWN` statuses of the source. -/
def simulateSFPRemoval (c : Controller) (ext : Ext) (now : Nat)
    (port_name : String) : SimResult :=
  if validatePortName port_name = false then
    { ok := false, ctrl := c, ext := ext, calls := [] }
  else
    let sfp_key := "TRANSCEIVER_INFO|" ++ port_name
    let w1 := setRedisHashField ext sfp_key "present" "false" 6
    if w1.1 = false then
      { ok := false, ctrl := c, ext := w1.2, calls := [] }
    else
      let c1 :=
        match mapFind c.sfp_info port_name with
        | some info =>
            { c with sfp_info := mapSet c.sfp_info port_name { info with is_present := false } }
        | none => c
      let event : PortEvent :=
        { port_name := port_name, event_type := CableEvent.SFP_REMOVED,
          old_status := LinkStatus.UP, new_status := LinkStatus.DOWN,
          speed_mbps := 0, duplex := "", timestamp := now,
          additional_info := "SFP removal simulated" }
      let t := triggerEvent c1 event
      { ok := true, ctrl := t.1, ext := w1.2, calls := t.2 }

/-- Helper for `dedupKeys`: drop keys already seen. -/
def dedupKeysAux : List String → List String → List String
  | [], _ => []
  | s :: rest, seen =>
      if seen.contains s then dedupKeysAux rest seen
      else s :: dedupKeysAux rest (s :: seen)

/-- Remove duplicate keys, keeping the first occurrence of each. -/
def dedupKeys (l : List String) : List String :=
  dedupKeysAux l []

/-- Keys of database `db` in the external store that start with `pat`,
first occurrence first — the output lines of `KEYS` that
`refreshPortStatusFromSONiC` iterates over. -/
def extMatchingKeys (ext : Ext) (db : Nat) (pat : String) : List String :=
  dedupKeys ((ext.store.filter
    (fun e => (e.1.1 == db) && strStarts e.1.2.1 pat)).map (fun e => e.1.2.1))

/-- The `LinkState` that `refreshPortStatusFromSONiC` builds for one port:
admin status from CONFIG_DB, oper status from APPL_DB, speed/mtu with
defaults, fixed descriptive attributes, and **both counters reset to 0**. -/
def refreshOnePort (ext : Ext) (now : Nat) (port_name : String) : LinkState :=
  let admin_status := getRedisHashField ext ("PORT|" ++ port_name) "admin_status" 4
  let oper_status := getRedisHashField ext ("PORT_TABLE:" ++ port_name) "oper_status" 0
  let speed_str := getRedisHashField ext ("PORT|" ++ port_name) "speed" 4
  let mtu_str := getRedisHashField ext ("PORT|" ++ port_name) "mtu" 4
  { port_name := port_name,
    admin_status := parseSONiCLinkStatus admin_status,
    oper_status := parseSONiCLinkStatus oper_status,
    speed_mbps := if speed_str.data.isEmpty then 100000 else strToNat speed_str,
    duplex := "full", auto_neg := true,
    mtu := if mtu_str.data.isEmpty then 9100 else strToNat mtu_str,
    mac_address := "02:42:ac:19:00:0a", last_change := now,
    link_up_count := 0, link_down_count := 0 }

/-- `refreshPortStatusFromSONiC()`: clear `m_port_states`, list the
`PORT|*` keys of CONFIG_DB (db 4), and rebuild the map from the external
store; every rebuilt entry has `link_up_count = link_down_count = 0`. -/
def refreshPortStatusFromSONiC (c : Controller) (ext : Ext) (now : Nat) :
    Bool × Controller :=
  let ports := (extMatchingKeys ext 4 "PORT|").map (fun k => strDrop k 5)
  (true, { c with port_states := ports.map (fun p => (p, refreshOnePort ext now p)) })

/-- `verifySONiCPortStatus(port_name, expected_status)`: read the
operational status from APPL_DB of the external system of record (not from
`m_port_states`), parse it, and return whether it equals the expectation.
Both the expected and the parsed actual value are printed for
diagnostics. -/
def verifySONiCPortStatus (c : Controller) (ext : Ext) (port_name : String)
    (expected_status : LinkStatus) : Bool :=
  let oper_status := getRedisHashField ext ("PORT_TABLE:" ++ port_name) "oper_status" 0
  let actual_status := parseSONiCLinkStatus oper_status
  actual_status == expected_status

/-! Observation helpers used by the theorem statements. -/

/-- The `link_up_count` a caller observes for `port` (0 when absent,
matching the default of `getPortLinkStateUnsafe`). -/
def upCount (c : Controller) (port : String) : Nat :=
  ((mapFind c.port_states port).map LinkState.link_up_count).getD 0

/-- The `link_down_count` a caller observes for `port`. -/
def downCount (c : Controller) (port : String) : Nat :=
  ((mapFind c.port_states port).map LinkState.link_down_count).getD 0

/-- Forget the `last_change` timestamp of a `LinkState` (used to state
which fields of a repeated default read are stable). -/
def eraseLastChange (st : LinkState) : LinkState :=
  { st with last_change := 0 }

/-! Lock/I-O interleaving model.

The source guards `m_port_states`/`m_sfp_info` with `m_state_mutex`, the
event history/statistics with `m_event_mutex` and the handler registries
with `m_handler_mutex`.  To settle claims about locks held across external
I/O we transcribe, for the success path of each simulate operation, the
ordered sequence of lock acquisitions/releases (`std::lock_guard` scopes),
external write commands (`setRedisHashField`), local mutations and handler
dispatch, exactly as they appear in `sonic_interrupt_controller.cpp`. -/

/-- The three mutexes of `SONiCInterruptController`. -/
inductive LockId where
  | stateLock
  | eventLock
  | handlerLock
deriving DecidableEq, Repr

/-- One primitive step of a simulate operation, as ordered in the source. -/
inductive LockAction where
  | acquire : LockId → LockAction
  | release : LockId → LockAction
  | externalWrite : LockAction
  | localWrite : LockAction
  | dispatch : LockAction
deriving DecidableEq, Repr

/-- `simulateCableInsertion` success path: `lock_guard(m_state_mutex)` is
taken first (line 177), the two `setRedisHashField` calls follow (lines
187, 194) with the state lock still held, then the local update,
`triggerEvent` (which takes `m_event_mutex` then `m_handler_mutex`), and
the scope-exit releases. -/
def cableInsertionLockTrace : List LockAction :=
  [LockAction.acquire LockId.stateLock,
   LockAction.externalWrite,
   LockAction.externalWrite,
   LockAction.localWrite,
   LockAction.acquire LockId.eventLock,
   LockAction.localWrite,
   LockAction.acquire LockId.handlerLock,
   LockAction.dispatch,
   LockAction.release LockId.handlerLock,
   LockAction.release LockId.eventLock,
   LockAction.release LockId.stateLock]

/-- `simulateCableRemoval` success path (lines 235, 245, 252): same shape
as insertion. -/
def cableRemovalLockTrace : List LockAction :=
  [LockAction.acquire LockId.stateLock,
   LockAction.externalWrite,
   LockAction.externalWrite,
   LockAction.localWrite,
   LockAction.acquire LockId.eventLock,
   LockAction.localWrite,
   LockAction.acquire LockId.handlerLock,
   LockAction.dispatch,
   LockAction.release LockId.handlerLock,
   LockAction.release LockId.eventLock,
   LockAction.release LockId.stateLock]

/-- `simulateSFPInsertion` success path: the four STATE_DB writes (lines
323–326) happen before `lock_guard(m_state_mutex)` (line 334). -/
def sfpInsertionLockTrace : List LockAction :=
  [LockAction.externalWrite,
   LockAction.externalWrite,
   LockAction.externalWrite,
   LockAction.externalWrite,
   LockAction.acquire LockId.stateLock,
   LockAction.localWrite,
   LockAction.acquire LockId.eventLock,
   LockAction.localWrite,
   LockAction.acquire LockId.handlerLock,
   LockAction.dispatch,
   LockAction.release LockId.handlerLock,
   LockAction.release LockId.eventLock,
   LockAction.release LockId.stateLock]

/-- `simulateSFPRemoval` success path: the STATE_DB write (line 362)
happens before `lock_guard(m_state_mutex)` (line 370). -/
def sfpRemovalLockTrace : List LockAction :=
  [LockAction.externalWrite,
   LockAction.acquire LockId.stateLock,
   LockAction.localWrite,
   LockAction.acquire LockId.eventLock,
   LockAction.localWrite,
   LockAction.acquire LockId.handlerLock,
   LockAction.dispatch,
   LockAction.release LockId.handlerLock,
   LockAction.release LockId.eventLock,
   LockAction.release LockId.stateLock]

/-- Does some `externalWrite` of the trace occur while lock `l` is held
(`depth` acquisitions of `l` are outstanding at entry)? -/
def extWriteWhileHeld (l : LockId) (depth : Nat) : List LockAction → Bool
  | [] => false
  | a :: rest =>
      match a with
      | LockAction.acquire l' =>
          extWriteWhileHeld l (if l' = l then depth + 1 else depth) rest
      | LockAction.release l' =>
          extWriteWhileHeld l (if l' = l then depth - 1 else depth) rest
      | LockAction.externalWrite =>
          decide (0 < depth) || extWriteWhileHeld l depth rest
      | _ => extWriteWhileHeld l depth rest

/-! Concrete scenario values used by witnesses and counterexamples. -/

/-- An external system on which every write command succeeds. -/
def extAllOk : Ext :=
  { store := [], failAt := fun _ => false, calls := 0 }

/-- An external system on which every write command fails. -/
def extAllFail : Ext :=
  { store := [], failAt := fun _ => true, calls := 0 }

/-- A concrete transceiver descriptor (after
`InterruptUtils::generateTestSFPInfo("Ethernet0")`). -/
def testSFP : SFPInfo :=
  { port_name := "Ethernet0", is_present := true,
    vendor_name := "Test Vendor", part_number := "TEST-SFP-001",
    serial_number := "TST0", connector_type := "LC", cable_length := "1m",
    supported_speeds := [1000, 10000, 25000, 100000], status := "OK" }

/-- A concrete throwing handler. -/
def throwingHandler : Handler :=
  { hid := 1, throws := true }

/-- A concrete well-behaved handler. -/
def benignHandler : Handler :=
  { hid := 2, throws := false }

/-- A controller with one throwing `CABLE_INSERTED` handler and one benign
global handler registered. -/
def ctrlWithThrowingHandler : Controller :=
  registerGlobalEventHandler
    (registerEventHandler initController CableEvent.CABLE_INSERTED throwingHandler)
    benignHandler

/-! Shared lemmas about the embedding. -/

theorem mapFind_mapSet_self {κ β : Type} [DecidableEq κ] (m : List (κ × β)) (k : κ) (v : β) :
    mapFind (mapSet m k v) k = some v := by
  induction m with
  | nil => simp [mapFind, mapSet]
  | cons p rest ih =>
      by_cases h : p.1 = k
      · simp [mapFind, mapSet, h]
      · simp [mapFind, mapSet, h, ih]

theorem mapFind_mapSet_ne {κ β : Type} [DecidableEq κ] (m : List (κ × β)) (k q : κ) (v : β)
    (h : q ≠ k) : mapFind (mapSet m k v) q = mapFind m q := by
  have h' : ¬ k = q := fun hh => h hh.symm
  induction m with
  | nil => simp [mapFind, mapSet, h']
  | cons p rest ih =>
      by_cases hp : p.1 = k
      · simp [mapFind, mapSet, hp, h']
      · simp [mapFind, mapSet, hp, ih]

theorem setRedisHashField_failAt (ext : Ext) (key field value : String) (db : Nat) :
    (setRedisHashField ext key field value db).2.failAt = ext.failAt := by
  unfold setRedisHashField
  split <;> rfl

theorem insertion_success_parts (c : Controller) (ext : Ext) (now : Nat) (port : String)
    (hv : validatePortName port = true) (hs : ∀ k, ext.failAt k = false) :
    (simulateCableInsertion c ext now port).ok = true ∧
    (simulateCableInsertion c ext now port).ext.failAt = ext.failAt ∧
    (∃ ev : PortEvent, ev.port_name = port ∧
      (simulateCableInsertion c ext now port).ctrl.event_history = c.event_history ++ [ev]) ∧
    (∃ st : LinkState, st.oper_status = LinkStatus.UP ∧
      mapFind (simulateCableInsertion c ext now port).ctrl.port_states port = some st) := by
  have h1 := hs ext.calls
  have h2 := hs (ext.calls + 1)
  refine ⟨?_, ?_, ?_, ?_⟩ <;>
    simp [simulateCableInsertion, setRedisHashField, hv, h1, h2, triggerEvent,
      mapFind_mapSet_self]

theorem removal_success_parts (c : Controller) (ext : Ext) (now : Nat) (port : String)
    (hv : validatePortName port = true) (hs : ∀ k, ext.failAt k = false) :
    (simulateCableRemoval c ext now port).ok = true ∧
    (simulateCableRemoval c ext now port).ext.failAt = ext.failAt ∧
    (∃ ev : PortEvent, ev.port_name = port ∧
      (simulateCableRemoval c ext now port).ctrl.event_history = c.event_history ++ [ev]) ∧
    (∃ st : LinkState, st.oper_status = LinkStatus.DOWN ∧
      mapFind (simulateCableRemoval c ext now port).ctrl.port_states port = some st) := by
  have h1 := hs ext.calls
  have h2 := hs (ext.calls + 1)
  refine ⟨?_, ?_, ?_, ?_⟩ <;>
    simp [simulateCableRemoval, setRedisHashField, hv, h1, h2, triggerEvent,
      mapFind_mapSet_self]

/-- On any failing path (invalid name or failing write-through) a cable
insertion leaves the controller untouched and dispatches nothing. -/
theorem insertion_fail_unchanged (c : Controller) (ext : Ext) (now : Nat) (port : String) :
    (simulateCableInsertion c ext now port).ok = false →
    (simulateCableInsertion c ext now port).ctrl = c ∧
    (simulateCableInsertion c ext now port).calls = [] := by
  simp only [simulateCableInsertion]
  split
  · intro _
    exact ⟨rfl, rfl⟩
  · split
    · intro _
      exact ⟨rfl, rfl⟩
    · split
      · intro _
        exact ⟨rfl, rfl⟩
      · intro h
        exact absurd h (by simp)

/-- On any failing path a cable removal leaves the controller untouched
and dispatches nothing. -/
theorem removal_fail_unchanged (c : Controller) (ext : Ext) (now : Nat) (port : String) :
    (simulateCableRemoval c ext now port).ok = false →
    (simulateCableRemoval c ext now port).ctrl = c ∧
    (simulateCableRemoval c ext now port).calls = [] := by
  simp only [simulateCableRemoval]
  split
  · intro _
    exact ⟨rfl, rfl⟩
  · split
    · intro _
      exact ⟨rfl, rfl⟩
    · split
      · intro _
        exact ⟨rfl, rfl⟩
      · intro h
        exact absurd h (by simp)

/-- On any failing path an SFP insertion leaves the controller untouched
and dispatches nothing. -/
theorem sfp_insertion_fail_unchanged (c : Controller) (ext : Ext) (now : Nat)
    (port : String) (sfp : SFPInfo) :
    (simulateSFPInsertion c ext now port sfp).ok = false →
    (simulateSFPInsertion c ext now port sfp).ctrl = c ∧
    (simulateSFPInsertion c ext now port sfp).calls = [] := by
  simp only [simulateSFPInsertion]
  split
  · intro _
    exact ⟨rfl, rfl⟩
  · split
    · intro _
      exact ⟨rfl, rfl⟩
    · intro h
      exact absurd h (by simp)

/-- On any failing path an SFP removal leaves the controller untouched and
dispatches nothing. -/
theorem sfp_removal_fail_unchanged (c : Controller) (ext : Ext) (now : Nat)
    (port : String) :
    (simulateSFPRemoval c ext now port).ok = false →
    (simulateSFPRemoval c ext now port).ctrl = c ∧
    (simulateSFPRemoval c ext now port).calls = [] := by
  simp only [simulateSFPRemoval]
  split
  · intro _
    exact ⟨rfl, rfl⟩
  · split
    · intro _
      exact ⟨rfl, rfl⟩
    · intro h
      exact absurd h (by simp)

/-- A failing first write-through makes each simulate operation return a
failure result. -/
theorem first_write_failure_fails_ops (c : Controller) (ext : Ext) (now : Nat)
    (port : String) (sfp : SFPInfo)
    (hv : validatePortName port = true) (hf : ext.failAt ext.calls = true) :
    (simulateCableInsertion c ext now port).ok = false ∧
    (simulateCableRemoval c ext now port).ok = false ∧
    (simulateSFPInsertion c ext now port sfp).ok = false ∧
    (simulateSFPRemoval c ext now port).ok = false := by
  refine ⟨?_, ?_, ?_, ?_⟩ <;>
    simp [simulateCableInsertion, simulateCableRemoval, simulateSFPInsertion,
      simulateSFPRemoval, setRedisHashField, hv, hf]

/-- C1. For every simulate operation (cable insertion, cable removal, SFP
insertion, SFP removal) on any port: if the external write-through fails
the operation returns a failure result, and whenever a simulate operation
returns a failure result the controller is exactly as before — the port's
`LinkState` and SFP entry are unchanged, no event is appended to the
history or counted in the statistics, and no handler is invoked. -/
theorem simulate_atomicity_on_external_failure (c : Controller) (ext : Ext)
    (now : Nat) (port : String) (sfp : SFPInfo) :
    ((simulateCableInsertion c ext now port).ok = false →
        (simulateCableInsertion c ext now port).ctrl = c ∧
        (simulateCableInsertion c ext now port).calls = []) ∧
    ((simulateCableRemoval c ext now port).ok = false →
        (simulateCableRemoval c ext now port).ctrl = c ∧
        (simulateCableRemoval c ext now port).calls = []) ∧
    ((simulateSFPInsertion c ext now port sfp).ok = false →
        (simulateSFPInsertion c ext now port sfp).ctrl = c ∧
        (simulateSFPInsertion c ext now port sfp).calls = []) ∧
    ((simulateSFPRemoval c ext now port).ok = false →
        (simulateSFPRemoval c ext now port).ctrl = c ∧
        (simulateSFPRemoval c ext now port).calls = []) ∧
    (validatePortName port = true → ext.failAt ext.calls = true →
        (simulateCableInsertion c ext now port).ok = false ∧
        (simulateCableRemoval c ext now port).ok = false ∧
        (simulateSFPInsertion c ext now port sfp).ok = false ∧
        (simulateSFPRemoval c ext now port).ok = false) :=
  ⟨insertion_fail_unchanged c ext now port,
   removal_fail_unchanged c ext now port,
   sfp_insertion_fail_unchanged c ext now port sfp,
   sfp_removal_fail_unchanged c ext now port,
   fun hv hf => first_write_failure_fails_ops c ext now port sfp hv hf⟩

/-- C1 witness: on a controller with no state and an external system whose
writes all fail, cable insertion on `Ethernet0` fails and leaves the
controller untouched with no handler invocation. -/
theorem simulate_atomicity_on_external_failure_witness :
    (simulateCableInsertion initController extAllFail 0 "Ethernet0").ok = false ∧
    (simulateCableInsertion initController extAllFail 0 "Ethernet0").ctrl = initController ∧
    (simulateCableInsertion initController extAllFail 0 "Ethernet0").calls = [] := by
  have T := simulate_atomicity_on_external_failure initController extAllFail 0 "Ethernet0" testSFP
  have hok : (simulateCableInsertion initController extAllFail 0 "Ethernet0").ok = false :=
    (T.2.2.2.2 (by decide) rfl).1
  exact ⟨hok, (T.1 hok).1, (T.1 hok).2⟩

/-- C4. Dispatch order of `triggerEvent`: all kind-specific handlers for
the event's type in registration order, then all global handlers in
registration order; in particular, registering one kind-specific handler
and one global handler on a fresh controller makes a single event invoke
the kind-specific handler strictly before the global one, each exactly
once. -/
theorem dispatch_order_spec :
    (∀ (c : Controller) (event : PortEvent),
        (triggerEvent c event).2 =
          ((mapFind c.event_handlers event.event_type).getD []).map Handler.call ++
            c.global_handlers.map Handler.call) ∧
    (∀ (hk hg : Handler) (event : PortEvent),
        (triggerEvent
            (registerGlobalEventHandler
              (registerEventHandler initController event.event_type hk) hg)
            event).2 = [hk.call, hg.call]) := by
  constructor
  · intro c event
    rfl
  · intro hk hg event
    simp [triggerEvent, registerGlobalEventHandler, registerEventHandler, initController,
      mapFind, mapSet]

/-- C5. A handler that raises during dispatch is caught: every later
kind-specific handler and every global handler is still invoked, in order,
and the simulate operation that published the event still returns
success. -/
theorem handler_error_isolation (c : Controller) (ext : Ext) (now : Nat) (port : String)
    (pre post : List Handler) (hthrow : Handler)
    (hv : validatePortName port = true) (hs : ∀ k, ext.failAt k = false)
    (hh : mapFind c.event_handlers CableEvent.CABLE_INSERTED = some (pre ++ [hthrow] ++ post))
    (ht : hthrow.throws = true) :
    (simulateCableInsertion c ext now port).ok = true ∧
    (simulateCableInsertion c ext now port).calls =
      pre.map Handler.call ++ [{ hid := hthrow.hid, raised := true }] ++
        post.map Handler.call ++ c.global_handlers.map Handler.call := by
  have hf1 := hs ext.calls
  have hf2 := hs (ext.calls + 1)
  constructor
  · simp [simulateCableInsertion, setRedisHashField, hv, hf1, hf2]
  · simp [simulateCableInsertion, setRedisHashField, hv, hf1, hf2, triggerEvent, hh,
      Handler.call, ht]

/-- C5 witness: with a throwing `CABLE_INSERTED` handler and a benign
global handler registered, a successful cable insertion invokes both
(throwing one first, recorded as raised) and returns success. -/
theorem handler_error_isolation_witness :
    (simulateCableInsertion ctrlWithThrowingHandler extAllOk 0 "Ethernet0").ok = true ∧
    (simulateCableInsertion ctrlWithThrowingHandler extAllOk 0 "Ethernet0").calls =
      [{ hid := 1, raised := true }, { hid := 2, raised := false }] := by
  have T := handler_error_isolation ctrlWithThrowingHandler extAllOk 0 "Ethernet0"
    [] [] throwingHandler (by decide) (fun k => rfl) rfl rfl
  exact ⟨T.1, T.2⟩

/-- C10. `verifySONiCPortStatus` compares the expectation against the
operational status parsed from the external system of record (APPL_DB,
`PORT_TABLE:<port>` / `oper_status`), returning true exactly on a match;
the result does not depend on the controller's local State Store. -/
theorem verify_status_reads_external (c c' : Controller) (ext : Ext) (port : String)
    (expected : LinkStatus) :
    (verifySONiCPortStatus c ext port expected =
      (parseSONiCLinkStatus (getRedisHashField ext ("PORT_TABLE:" ++ port) "oper_status" 0)
        == expected)) ∧
    verifySONiCPortStatus c ext port expected = verifySONiCPortStatus c' ext port expected :=
  ⟨rfl, rfl⟩

/-- C8. Starting from a state in which the port has no recorded
`LinkState`, a successful cable insertion followed by a successful cable
removal leaves `oper_status = DOWN` and
`link_up_count = link_down_count = 1`. -/
theorem cable_round_trip (c : Controller) (ext : Ext) (now now' t : Nat) (port : String)
    (hv : validatePortName port = true)
    (hnone : mapFind c.port_states port = none)
    (hs : ∀ k, ext.failAt k = false) :
    (simulateCableInsertion c ext now port).ok = true ∧
    (simulateCableRemoval (simulateCableInsertion c ext now port).ctrl
        (simulateCableInsertion c ext now port).ext now' port).ok = true ∧
    (getPortLinkState (simulateCableRemoval (simulateCableInsertion c ext now port).ctrl
        (simulateCableInsertion c ext now port).ext now' port).ctrl port t).oper_status =
      LinkStatus.DOWN ∧
    (getPortLinkState (simulateCableRemoval (simulateCableInsertion c ext now port).ctrl
        (simulateCableInsertion c ext now port).ext now' port).ctrl port t).link_up_count = 1 ∧
    (getPortLinkState (simulateCableRemoval (simulateCableInsertion c ext now port).ctrl
        (simulateCableInsertion c ext now port).ext now' port).ctrl port t).link_down_count = 1 := by
  have h1 := hs ext.calls
  have h2 := hs (ext.calls + 1)
  have h3 := hs (ext.calls + 2)
  have h4 := hs (ext.calls + 3)
  refine ⟨?_, ?_, ?_, ?_, ?_⟩ <;>
    simp [simulateCableInsertion, simulateCableRemoval, setRedisHashField, hv, hnone,
      h1, h2, h3, h4, triggerEvent, getPortLinkState, getPortLinkStateUnsafe,
      mapFind_mapSet_self]

/-- C8 witness: the round trip on `Ethernet0` from a fresh controller. -/
theorem cable_round_trip_witness :
    (simulateCableInsertion initController extAllOk 0 "Ethernet0").ok = true ∧
    (simulateCableRemoval (simulateCableInsertion initController extAllOk 0 "Ethernet0").ctrl
        (simulateCableInsertion initController extAllOk 0 "Ethernet0").ext 1 "Ethernet0").ok = true ∧
    (getPortLinkState (simulateCableRemoval
        (simulateCableInsertion initController extAllOk 0 "Ethernet0").ctrl
        (simulateCableInsertion initController extAllOk 0 "Ethernet0").ext 1 "Ethernet0").ctrl
      "Ethernet0" 2).oper_status = LinkStatus.DOWN ∧
    (getPortLinkState (simulateCableRemoval
        (simulateCableInsertion initController extAllOk 0 "Ethernet0").ctrl
        (simulateCableInsertion initController extAllOk 0 "Ethernet0").ext 1 "Ethernet0").ctrl
      "Ethernet0" 2).link_up_count = 1 ∧
    (getPortLinkState (simulateCableRemoval
        (simulateCableInsertion initController extAllOk 0 "Ethernet0").ctrl
        (simulateCableInsertion initController extAllOk 0 "Ethernet0").ext 1 "Ethernet0").ctrl
      "Ethernet0" 2).link_down_count = 1 :=
  cable_round_trip initController extAllOk 0 1 2 "Ethernet0" (by decide) rfl (fun k => rfl)

/-- C3 counterexample: after a successful cable insertion the port's
`oper_status` in the State Store is UP, yet a successful
`simulateSFPInsertion` on that port publishes an event whose `old_status`
is the hardcoded DOWN, not the UP read from the store. -/
theorem sfp_event_old_status_counterexample :
    (simulateCableInsertion initController extAllOk 0 "Ethernet0").ok = true ∧
    (getPortLinkState (simulateCableInsertion initController extAllOk 0 "Ethernet0").ctrl
      "Ethernet0" 1).oper_status = LinkStatus.UP ∧
    (simulateSFPInsertion (simulateCableInsertion initController extAllOk 0 "Ethernet0").ctrl
        (simulateCableInsertion initController extAllOk 0 "Ethernet0").ext 1 "Ethernet0"
        testSFP).ok = true ∧
    ((simulateSFPInsertion (simulateCableInsertion initController extAllOk 0 "Ethernet0").ctrl
        (simulateCableInsertion initController extAllOk 0 "Ethernet0").ext 1 "Ethernet0"
        testSFP).ctrl.event_history.getLast?.map PortEvent.old_status) =
      some LinkStatus.DOWN ∧
    LinkStatus.DOWN ≠ LinkStatus.UP := by
  decide

/-- C3 amended: the events published by `simulateSFPInsertion` and
`simulateSFPRemoval` carry hardcoded statuses — insertion always
`old_status = DOWN`, `new_status = UP`; removal always `old_status = UP`,
`new_status = DOWN` — independent of the port's state in the State
Store. -/
theorem sfp_event_status_hardcoded_amended (c : Controller) (ext : Ext) (now : Nat)
    (port : String) (sfp : SFPInfo) :
    ((simulateSFPInsertion c ext now port sfp).ok = true →
      (simulateSFPInsertion c ext now port sfp).ctrl.event_history =
        c.event_history ++
          [{ port_name := port, event_type := CableEvent.SFP_INSERTED,
             old_status := LinkStatus.DOWN, new_status := LinkStatus.UP,
             speed_mbps := 0, duplex := "", timestamp := now,
             additional_info := "SFP insertion simulated" }]) ∧
    ((simulateSFPRemoval c ext now port).ok = true →
      (simulateSFPRemoval c ext now port).ctrl.event_history =
        c.event_history ++
          [{ port_name := port, event_type := CableEvent.SFP_REMOVED,
             old_status := LinkStatus.UP, new_status := LinkStatus.DOWN,
             speed_mbps := 0, duplex := "", timestamp := now,
             additional_info := "SFP removal simulated" }]) := by
  constructor
  · simp only [simulateSFPInsertion]
    split
    · intro h
      exact absurd h (by simp)
    · split
      · intro h
        exact absurd h (by simp)
      · intro _
        rfl
  · simp only [simulateSFPRemoval]
    split
    · intro h
      exact absurd h (by simp)
    · split
      · intro h
        exact absurd h (by simp)
      · intro _
        rcases hfind : mapFind c.sfp_info port with _ | info <;>
          simp [triggerEvent, hfind]

/-- C3 amended witness: a successful SFP insertion on a fresh controller
appends exactly the hardcoded DOWN→UP event. -/
theorem sfp_event_status_hardcoded_amended_witness :
    (simulateSFPInsertion initController extAllOk 0 "Ethernet0" testSFP).ctrl.event_history =
      [{ port_name := "Ethernet0", event_type := CableEvent.SFP_INSERTED,
         old_status := LinkStatus.DOWN, new_status := LinkStatus.UP,
         speed_mbps := 0, duplex := "", timestamp := 0,
         additional_info := "SFP insertion simulated" }] :=
  (sfp_event_status_hardcoded_amended initController extAllOk 0 "Ethernet0" testSFP).1 rfl

/-- C9 counterexample: two reads of an unknown port at different times do
not return the same `LinkState` — the default is restamped with
`last_change = now()` on every call, so the repeated read is not literally
stable. -/
theorem unknown_port_repeated_read_instability :
    getPortLinkState initController "Ethernet0" 0 ≠
      getPortLinkState initController "Ethernet0" 1 := by
  decide

/-- C9 amended: for a port with no entry, `getPortLinkState` returns the
all-UNKNOWN default with zero counters and `getSFPInfo` the not-present
default; neither fails, and repeated reads agree on every field except
`last_change`, which is stamped with the time of the read. -/
theorem unknown_port_default_amended (c : Controller) (port : String) (now now' : Nat)
    (hp : mapFind c.port_states port = none)
    (hq : mapFind c.sfp_info port = none) :
    (getPortLinkState c port now).admin_status = LinkStatus.UNKNOWN ∧
    (getPortLinkState c port now).oper_status = LinkStatus.UNKNOWN ∧
    (getPortLinkState c port now).link_up_count = 0 ∧
    (getPortLinkState c port now).link_down_count = 0 ∧
    (getSFPInfo c port).is_present = false ∧
    eraseLastChange (getPortLinkState c port now) =
      eraseLastChange (getPortLinkState c port now') ∧
    (getPortLinkState c port now).last_change = now := by
  refine ⟨?_, ?_, ?_, ?_, ?_, ?_, ?_⟩ <;>
    simp [getPortLinkState, getPortLinkStateUnsafe, getSFPInfo, eraseLastChange, hp, hq]

/-- C9 amended witness: the defaults on a fresh controller. -/
theorem unknown_port_default_amended_witness :
    (getPortLinkState initController "Ethernet0" 0).admin_status = LinkStatus.UNKNOWN ∧
    (getPortLinkState initController "Ethernet0" 0).oper_status = LinkStatus.UNKNOWN ∧
    (getPortLinkState initController "Ethernet0" 0).link_up_count = 0 ∧
    (getPortLinkState initController "Ethernet0" 0).link_down_count = 0 ∧
    (getSFPInfo initController "Ethernet0").is_present = false ∧
    eraseLastChange (getPortLinkState initController "Ethernet0" 0) =
      eraseLastChange (getPortLinkState initController "Ethernet0" 1) ∧
    (getPortLinkState initController "Ethernet0" 0).last_change = 0 :=
  unknown_port_default_amended initController "Ethernet0" 0 1 rfl rfl

/-- C7 counterexample: in `simulateCableInsertion` the State Store lock
(`m_state_mutex`, `lock_guard` at line 177) is held across the external
write-through calls (lines 187 and 194), contradicting the claim that no
controller lock is held across external I/O during every simulate
operation. -/
theorem state_lock_held_across_external_write :
    extWriteWhileHeld LockId.stateLock 0 cableInsertionLockTrace = true := by
  decide

/-- C7 amended: cable insertion and removal perform their external
write-through while holding the State Store lock (and only that lock);
SFP insertion and removal issue all their external writes before any lock
is taken. -/
theorem lock_discipline_amended :
    extWriteWhileHeld LockId.stateLock 0 cableInsertionLockTrace = true ∧
    extWriteWhileHeld LockId.stateLock 0 cableRemovalLockTrace = true ∧
    extWriteWhileHeld LockId.eventLock 0 cableInsertionLockTrace = false ∧
    extWriteWhileHeld LockId.handlerLock 0 cableInsertionLockTrace = false ∧
    extWriteWhileHeld LockId.eventLock 0 cableRemovalLockTrace = false ∧
    extWriteWhileHeld LockId.handlerLock 0 cableRemovalLockTrace = false ∧
    extWriteWhileHeld LockId.stateLock 0 sfpInsertionLockTrace = false ∧
    extWriteWhileHeld LockId.eventLock 0 sfpInsertionLockTrace = false ∧
    extWriteWhileHeld LockId.handlerLock 0 sfpInsertionLockTrace = false ∧
    extWriteWhileHeld LockId.stateLock 0 sfpRemovalLockTrace = false ∧
    extWriteWhileHeld LockId.eventLock 0 sfpRemovalLockTrace = false ∧
    extWriteWhileHeld LockId.handlerLock 0 sfpRemovalLockTrace = false := by
  decide

/-! Counter lemmas shared by the counter claims. -/

theorem insertion_counts (c : Controller) (ext : Ext) (now : Nat) (port : String) :
    (simulateCableInsertion c ext now port).ok = true →
      upCount (simulateCableInsertion c ext now port).ctrl port = upCount c port + 1 ∧
      downCount (simulateCableInsertion c ext now port).ctrl port = downCount c port ∧
      (∀ q, q ≠ port →
        mapFind (simulateCableInsertion c ext now port).ctrl.port_states q =
          mapFind c.port_states q) := by
  simp only [simulateCableInsertion]
  split
  · intro h
    exact absurd h (by simp)
  · split
    · intro h
      exact absurd h (by simp)
    · split
      · intro h
        exact absurd h (by simp)
      · intro _
        refine ⟨?_, ?_, ?_⟩
        · cases hfind : mapFind c.port_states port <;>
            simp [upCount, triggerEvent, mapFind_mapSet_self, getPortLinkStateUnsafe, hfind]
        · cases hfind : mapFind c.port_states port <;>
            simp [downCount, triggerEvent, mapFind_mapSet_self, getPortLinkStateUnsafe, hfind]
        · intro q hq
          simp [triggerEvent, mapFind_mapSet_ne _ _ _ _ hq]

theorem removal_counts (c : Controller) (ext : Ext) (now : Nat) (port : String) :
    (simulateCableRemoval c ext now port).ok = true →
      downCount (simulateCableRemoval c ext now port).ctrl port = downCount c port + 1 ∧
      upCount (simulateCableRemoval c ext now port).ctrl port = upCount c port ∧
      (∀ q, q ≠ port →
        mapFind (simulateCableRemoval c ext now port).ctrl.port_states q =
          mapFind c.port_states q) := by
  simp only [simulateCableRemoval]
  split
  · intro h
    exact absurd h (by simp)
  · split
    · intro h
      exact absurd h (by simp)
    · split
      · intro h
        exact absurd h (by simp)
      · intro _
        refine ⟨?_, ?_, ?_⟩
        · cases hfind : mapFind c.port_states port <;>
            simp [downCount, triggerEvent, mapFind_mapSet_self, getPortLinkStateUnsafe, hfind]
        · cases hfind : mapFind c.port_states port <;>
            simp [upCount, triggerEvent, mapFind_mapSet_self, getPortLinkStateUnsafe, hfind]
        · intro q hq
          simp [triggerEvent, mapFind_mapSet_ne _ _ _ _ hq]

theorem insertion_counts_mono (c : Controller) (ext : Ext) (now : Nat) (port q : String) :
    upCount c q ≤ upCount (simulateCableInsertion c ext now port).ctrl q ∧
    downCount c q ≤ downCount (simulateCableInsertion c ext now port).ctrl q := by
  cases hok : (simulateCableInsertion c ext now port).ok with
  | false =>
      rw [(insertion_fail_unchanged c ext now port hok).1]
      exact ⟨Nat.le_refl _, Nat.le_refl _⟩
  | true =>
      obtain ⟨hup, hdown, hother⟩ := insertion_counts c ext now port hok
      by_cases hq : q = port
      · subst hq
        rw [hup, hdown]
        exact ⟨Nat.le_add_right _ _, Nat.le_refl _⟩
      · simp [upCount, downCount, hother q hq]

theorem removal_counts_mono (c : Controller) (ext : Ext) (now : Nat) (port q : String) :
    upCount c q ≤ upCount (simulateCableRemoval c ext now port).ctrl q ∧
    downCount c q ≤ downCount (simulateCableRemoval c ext now port).ctrl q := by
  cases hok : (simulateCableRemoval c ext now port).ok with
  | false =>
      rw [(removal_fail_unchanged c ext now port hok).1]
      exact ⟨Nat.le_refl _, Nat.le_refl _⟩
  | true =>
      obtain ⟨hdown, hup, hother⟩ := removal_counts c ext now port hok
      by_cases hq : q = port
      · subst hq
        rw [hup, hdown]
        exact ⟨Nat.le_refl _, Nat.le_add_right _ _⟩
      · simp [upCount, downCount, hother q hq]

theorem flap_counts_mono (c : Controller) (ext : Ext) (now : Nat) (port q : String) (n : Nat) :
    upCount c q ≤ upCount (simulateLinkFlap c ext now port n).ctrl q ∧
    downCount c q ≤ downCount (simulateLinkFlap c ext now port n).ctrl q := by
  induction n generalizing c ext with
  | zero => exact ⟨Nat.le_refl _, Nat.le_refl _⟩
  | succ m ih =>
      have hD := removal_counts_mono c ext now port q
      have hU := insertion_counts_mono (simulateCableRemoval c ext now port).ctrl
        (simulateCableRemoval c ext now port).ext now port q
      have hR := ih (simulateCableInsertion (simulateCableRemoval c ext now port).ctrl
          (simulateCableRemoval c ext now port).ext now port).ctrl
        (simulateCableInsertion (simulateCableRemoval c ext now port).ctrl
          (simulateCableRemoval c ext now port).ext now port).ext
      simp only [simulateLinkFlap]
      split
      · exact hD
      · split
        · exact ⟨Nat.le_trans hD.1 hU.1, Nat.le_trans hD.2 hU.2⟩
        · exact ⟨Nat.le_trans hD.1 (Nat.le_trans hU.1 hR.1),
                 Nat.le_trans hD.2 (Nat.le_trans hU.2 hR.2)⟩

theorem sfp_insertion_port_states (c : Controller) (ext : Ext) (now : Nat)
    (port : String) (sfp : SFPInfo) :
    (simulateSFPInsertion c ext now port sfp).ctrl.port_states = c.port_states := by
  simp only [simulateSFPInsertion]
  split
  · rfl
  · split
    · rfl
    · rfl

theorem sfp_removal_port_states (c : Controller) (ext : Ext) (now : Nat) (port : String) :
    (simulateSFPRemoval c ext now port).ctrl.port_states = c.port_states := by
  simp only [simulateSFPRemoval]
  split
  · rfl
  · split
    · rfl
    · rcases hfind : mapFind c.sfp_info port with _ | info <;>
        simp [triggerEvent, hfind]

theorem mapFind_keyed_map_zero {β : Type} (f : String → β) (g : β → Nat)
    (l : List String) (q : String) (hz : ∀ p, g (f p) = 0) :
    ((mapFind (l.map fun p => (p, f p)) q).map g).getD 0 = 0 := by
  induction l with
  | nil => rfl
  | cons p rest ih =>
      by_cases h : p = q
      · subst h
        simp [mapFind, hz]
      · simpa [mapFind, h] using ih

theorem refresh_counts_zero (c : Controller) (ext : Ext) (now : Nat) (q : String) :
    upCount (refreshPortStatusFromSONiC c ext now).2 q = 0 ∧
    downCount (refreshPortStatusFromSONiC c ext now).2 q = 0 :=
  ⟨mapFind_keyed_map_zero (refreshOnePort ext now) LinkState.link_up_count _ q (fun p => rfl),
   mapFind_keyed_map_zero (refreshOnePort ext now) LinkState.link_down_count _ q (fun p => rfl)⟩

/-- C2 counterexample: `refreshPortStatusFromSONiC` is an operation of the
controller that rebuilds every port entry with `link_up_count =
link_down_count = 0`; after a successful cable insertion (`link_up_count =
1`), a refresh drops the port's observed `link_up_count` back to 0 — the
counter is not monotonically increasing across every operation. -/
theorem refresh_resets_counters_counterexample :
    (simulateCableInsertion initController extAllOk 0 "Ethernet0").ok = true ∧
    upCount (simulateCableInsertion initController extAllOk 0 "Ethernet0").ctrl "Ethernet0" = 1 ∧
    upCount (refreshPortStatusFromSONiC
        (simulateCableInsertion initController extAllOk 0 "Ethernet0").ctrl
        (simulateCableInsertion initController extAllOk 0 "Ethernet0").ext 1).2 "Ethernet0" = 0 ∧
    upCount (refreshPortStatusFromSONiC
        (simulateCableInsertion initController extAllOk 0 "Ethernet0").ctrl
        (simulateCableInsertion initController extAllOk 0 "Ethernet0").ext 1).2 "Ethernet0" <
      upCount (simulateCableInsertion initController extAllOk 0 "Ethernet0").ctrl "Ethernet0" := by
  decide

/-- C2 amended: across the simulate operations the counters are monotone
and incremented exactly once per successful transition — a successful
insertion adds exactly 1 to the port's `link_up_count` and leaves
`link_down_count` and all other ports untouched; removal symmetrically for
`link_down_count`; a failed operation changes nothing; SFP operations
never touch `port_states`; link flap never decreases either counter.
`refreshPortStatusFromSONiC`, however, rebuilds the table with both
counters reset to 0. -/
theorem counters_monotone_amended (c : Controller) (ext : Ext) (now : Nat)
    (port q : String) (n : Nat) (sfp : SFPInfo) :
    ((simulateCableInsertion c ext now port).ok = true →
        upCount (simulateCableInsertion c ext now port).ctrl port = upCount c port + 1 ∧
        downCount (simulateCableInsertion c ext now port).ctrl port = downCount c port ∧
        (q ≠ port →
          mapFind (simulateCableInsertion c ext now port).ctrl.port_states q =
            mapFind c.port_states q)) ∧
    ((simulateCableInsertion c ext now port).ok = false →
        (simulateCableInsertion c ext now port).ctrl = c) ∧
    ((simulateCableRemoval c ext now port).ok = true →
        downCount (simulateCableRemoval c ext now port).ctrl port = downCount c port + 1 ∧
        upCount (simulateCableRemoval c ext now port).ctrl port = upCount c port ∧
        (q ≠ port →
          mapFind (simulateCableRemoval c ext now port).ctrl.port_states q =
            mapFind c.port_states q)) ∧
    ((simulateCableRemoval c ext now port).ok = false →
        (simulateCableRemoval c ext now port).ctrl = c) ∧
    (simulateSFPInsertion c ext now port sfp).ctrl.port_states = c.port_states ∧
    (simulateSFPRemoval c ext now port).ctrl.port_states = c.port_states ∧
    (upCount c q ≤ upCount (simulateLinkFlap c ext now port n).ctrl q ∧
     downCount c q ≤ downCount (simulateLinkFlap c ext now port n).ctrl q) ∧
    (upCount (refreshPortStatusFromSONiC c ext now).2 q = 0 ∧
     downCount (refreshPortStatusFromSONiC c ext now).2 q = 0) := by
  refine ⟨?_, ?_, ?_, ?_, ?_, ?_, ?_, ?_⟩
  · intro hok
    obtain ⟨hup, hdown, hother⟩ := insertion_counts c ext now port hok
    exact ⟨hup, hdown, fun hq => hother q hq⟩
  · intro hok
    exact (insertion_fail_unchanged c ext now port hok).1
  · intro hok
    obtain ⟨hdown, hup, hother⟩ := removal_counts c ext now port hok
    exact ⟨hdown, hup, fun hq => hother q hq⟩
  · intro hok
    exact (removal_fail_unchanged c ext now port hok).1
  · exact sfp_insertion_port_states c ext now port sfp
  · exact sfp_removal_port_states c ext now port
  · exact flap_counts_mono c ext now port q n
  · exact refresh_counts_zero c ext now q

/-- C2 amended witness: a successful insertion on `Ethernet0` takes the
observed `link_up_count` from 0 to 1 and keeps `link_down_count` at 0. -/
theorem counters_monotone_amended_witness :
    upCount (simulateCableInsertion initController extAllOk 0 "Ethernet0").ctrl "Ethernet0" =
      upCount initController "Ethernet0" + 1 ∧
    downCount (simulateCableInsertion initController extAllOk 0 "Ethernet0").ctrl "Ethernet0" =
      downCount initController "Ethernet0" ∧
    upCount (refreshPortStatusFromSONiC initController extAllOk 0).2 "Ethernet0" = 0 := by
  have T := counters_monotone_amended initController extAllOk 0 "Ethernet0" "Ethernet4" 1 testSFP
  have hok : (simulateCableInsertion initController extAllOk 0 "Ethernet0").ok = true := by
    decide
  exact ⟨(T.1 hok).1, (T.1 hok).2.1, (T.2.2.2.2.2.2.2).1⟩

/-- C6. With a valid port name and an external system on which every write
succeeds, `simulateLinkFlap(port, n)` succeeds, appends exactly `2 * n`
events to the history — all for `port` (each of the `n` repetitions is one
removal followed by one insertion, each publishing one event) — and for
`n ≥ 1` leaves the port's `oper_status` UP. -/
theorem link_flap_spec (c : Controller) (ext : Ext) (now : Nat) (port : String) (n : Nat)
    (hv : validatePortName port = true) (hs : ∀ k, ext.failAt k = false) :
    (simulateLinkFlap c ext now port n).ok = true ∧
    (∃ es : List PortEvent,
      (simulateLinkFlap c ext now port n).ctrl.event_history = c.event_history ++ es ∧
      es.length = 2 * n ∧ ∀ e ∈ es, e.port_name = port) ∧
    (1 ≤ n →
      ((mapFind (simulateLinkFlap c ext now port n).ctrl.port_states port).map
        LinkState.oper_status) = some LinkStatus.UP) := by
  induction n generalizing c ext with
  | zero =>
      refine ⟨rfl, ⟨[], by simp [simulateLinkFlap], by simp, by simp⟩, ?_⟩
      intro h
      exact absurd h (by omega)
  | succ m ih =>
      obtain ⟨okD, extD, ⟨evD, hpD, histD⟩, -⟩ := removal_success_parts c ext now port hv hs
      have hsD : ∀ k, (simulateCableRemoval c ext now port).ext.failAt k = false := by
        intro k
        rw [extD]
        exact hs k
      obtain ⟨okU, extU, ⟨evU, hpU, histU⟩, ⟨stU, hstU, hfindU⟩⟩ :=
        insertion_success_parts (simulateCableRemoval c ext now port).ctrl
          (simulateCableRemoval c ext now port).ext now port hv hsD
      have hsU : ∀ k, (simulateCableInsertion (simulateCableRemoval c ext now port).ctrl
          (simulateCableRemoval c ext now port).ext now port).ext.failAt k = false := by
        intro k
        rw [extU]
        exact hsD k
      obtain ⟨okR, ⟨es, hes, hlen, hports⟩, hupR⟩ :=
        ih (simulateCableInsertion (simulateCableRemoval c ext now port).ctrl
              (simulateCableRemoval c ext now port).ext now port).ctrl
           (simulateCableInsertion (simulateCableRemoval c ext now port).ctrl
              (simulateCableRemoval c ext now port).ext now port).ext hsU
      refine ⟨?_, ⟨evD :: evU :: es, ?_, ?_, ?_⟩, ?_⟩
      · simp only [simulateLinkFlap, okD, okU]
        simpa using okR
      · simp only [simulateLinkFlap, okD, okU]
        simp only [if_neg (by simp : ¬ (true = false))]
        rw [hes, histU, histD]
        simp
      · simp only [List.length_cons, hlen]
        omega
      · intro e he
        simp only [List.mem_cons] at he
        rcases he with rfl | rfl | h
        · exact hpD
        · exact hpU
        · exact hports e h
      · intro _
        cases m with
        | zero =>
            simp only [simulateLinkFlap, okD, okU]
            simp only [if_neg (by simp : ¬ (true = false))]
            rw [hfindU]
            simp [hstU]
        | succ m' =>
            simp only [simulateLinkFlap, okD, okU]
            simp only [if_neg (by simp : ¬ (true = false))]
            exact hupR (by omega)

/-- C6 witness: `simulateLinkFlap(Ethernet0, 3)` on a fresh controller
succeeds, publishes exactly 6 events and leaves `oper_status` UP. -/
theorem link_flap_spec_witness :
    (simulateLinkFlap initController extAllOk 0 "Ethernet0" 3).ok = true ∧
    (simulateLinkFlap initController extAllOk 0 "Ethernet0" 3).ctrl.event_history.length = 6 ∧
    ((mapFind (simulateLinkFlap initController extAllOk 0 "Ethernet0" 3).ctrl.port_states
        "Ethernet0").map LinkState.oper_status) = some LinkStatus.UP := by
  obtain ⟨hok, ⟨es, hes, hlen, hports⟩, hup⟩ :=
    link_flap_spec initController extAllOk 0 "Ethernet0" 3 (by decide) (fun k => rfl)
  refine ⟨hok, ?_, hup (by omega)⟩
  rw [hes]
  simp [hlen, initController]

end SonicInterrupts
